import Mathlib

/-!
# CovariateRiskSharing — verification of the panel-normalization and
shock-caching core

Shallow embedding of the repository's small data-wrangling core:

* `prepare_cluster_dataframe` — the panel normalizer merging a primary
  feature table with an optional secondary ("locality") table;
* `load_shocks` — the cache-or-compute shock dataset loader;
* `exec_module` — the import-hook wrapper from `sitecustomize.py` that
  enriches decryption failures with an actionable hint;
* the `RISKSHARING_SEED` environment seeding logic from `sitecustomize.py`;
* the line parsing and median computation of `scripts/summarize_benchmarks.py`.

Tables are modelled as an index list plus an association list of named
columns; cells are `Option α` so that a missing value (pandas `NaN`) is
representable.  Python exceptions are modelled with `Except`.
-/

/-! ## Character/string helpers (executable models of the Python string ops) -/

/-- Strip leading and trailing whitespace, as Python `str.strip()` does
(restricted to the whitespace characters Lean's `Char.isWhitespace` knows). -/
def stripChars (l : List Char) : List Char :=
  ((l.dropWhile Char.isWhitespace).reverse.dropWhile Char.isWhitespace).reverse

/-- Python `str.strip()` lifted to `String`. -/
def pyStrip (s : String) : String :=
  (stripChars s.toList).asString

/-- Python `str.rstrip("s")`: drop every trailing `s` character. -/
def rstripS (l : List Char) : List Char :=
  (l.reverse.dropWhile (fun c => c = 's')).reverse

/-- Split a character list at every occurrence of `sep`, like Python
`str.split(sep)` for a one-character separator (the separator used by
`summarize_benchmarks.py` is the single character `|`). -/
def splitChar (sep : Char) : List Char → List (List Char)
  | [] => [[]]
  | c :: rest =>
      let r := splitChar sep rest
      if c = sep then [] :: r
      else
        match r with
        | h :: t => (c :: h) :: t
        | [] => [[c]]

/-- Does `p` occur at the start of `l`? -/
def startsWithChars : List Char → List Char → Bool
  | _, [] => true
  | [], _ :: _ => false
  | c :: l, d :: p => c = d && startsWithChars l p

/-- Does `p` occur contiguously anywhere in `l`?  Models the Python
substring test `p in l`. -/
def hasSubChars : List Char → List Char → Bool
  | [], p => p.isEmpty
  | c :: rest, p => startsWithChars (c :: rest) p || hasSubChars rest p

/-- Substring containment on `String`, models Python's `sub in s`. -/
def containsText (s sub : String) : Bool :=
  hasSubChars s.toList sub.toList

/-! ## Python integer-literal parsing

`sitecustomize.py` parses the seed with `int(value, 0)` (base auto-detected
from prefix) and `summarize_benchmarks.py` parses durations with `int(value)`
(base 10).  We model CPython's accepted grammar for ASCII inputs: optional
surrounding whitespace, optional sign, then digits with single underscores
strictly between digits; base 0 additionally recognizes the `0x`/`0o`/`0b`
prefixes (an underscore may directly follow the prefix) and rejects decimal
literals with leading zeros unless the value is zero. -/

/-- Value of `c` as a digit in `base`, or `none`. -/
def digitVal (base : Nat) (c : Char) : Option Nat :=
  let v : Option Nat :=
    if c.isDigit then some (c.toNat - 48)
    else if 97 ≤ c.toNat ∧ c.toNat ≤ 122 then some (c.toNat - 87)
    else if 65 ≤ c.toNat ∧ c.toNat ≤ 90 then some (c.toNat - 55)
    else none
  match v with
  | some n => if n < base then some n else none
  | none => none

/-- Accumulate digits in `base`, allowing a single underscore strictly
between digits (every underscore must be immediately followed by a digit,
and an underscore never ends the literal). -/
def parseDigitsAux (base : Nat) (acc : Nat) : List Char → Option Nat
  | [] => some acc
  | '_' :: rest =>
      match rest with
      | c :: rest2 =>
          match digitVal base c with
          | some d => parseDigitsAux base (acc * base + d) rest2
          | none => none
      | [] => none
  | c :: rest =>
      match digitVal base c with
      | some d => parseDigitsAux base (acc * base + d) rest
      | none => none

/-- Parse a non-empty digit sequence in `base`.  When `allowLead` is true a
single leading underscore is permitted (CPython allows `0x_1f`). -/
def parseDigitSeq (base : Nat) (allowLead : Bool) (l : List Char) : Option Nat :=
  match l with
  | [] => none
  | '_' :: rest =>
      if allowLead then
        match rest with
        | c :: rest2 =>
            match digitVal base c with
            | some d => parseDigitsAux base d rest2
            | none => none
        | [] => none
      else none
  | c :: rest =>
      match digitVal base c with
      | some d => parseDigitsAux base d rest
      | none => none

/-- CPython `int(s, 0)`: integer parsing with automatic base detection. -/
def pyIntBase0 (s : String) : Option Int :=
  let l := stripChars s.toList
  let signed : Bool × List Char :=
    match l with
    | '-' :: rest => (true, rest)
    | '+' :: rest => (false, rest)
    | _ => (false, l)
  let mag : Option Nat :=
    match signed.2 with
    | '0' :: c :: rest =>
        if c = 'x' ∨ c = 'X' then parseDigitSeq 16 true rest
        else if c = 'o' ∨ c = 'O' then parseDigitSeq 8 true rest
        else if c = 'b' ∨ c = 'B' then parseDigitSeq 2 true rest
        else
          match parseDigitSeq 10 false ('0' :: c :: rest) with
          | some n => if n = 0 then some 0 else none
          | none => none
    | l2 => parseDigitSeq 10 false l2
  match mag with
  | some n => some (if signed.1 then -(n : Int) else (n : Int))
  | none => none

/-- CPython `int(s)`: base-10 integer parsing. -/
def pyIntDec (s : String) : Option Int :=
  let l := stripChars s.toList
  let signed : Bool × List Char :=
    match l with
    | '-' :: rest => (true, rest)
    | '+' :: rest => (false, rest)
    | _ => (false, l)
  match parseDigitSeq 10 false signed.2 with
  | some n => some (if signed.1 then -(n : Int) else (n : Int))
  | none => none

/-! ## The data model: tables

A table is an index (a list of composite keys, in row order), the names of
the index levels, and an association list of named columns whose values are
listed in row order.  A cell is `Option α`: `none` models a missing value. -/

/-- A pandas-style table: index entries in row order, index level names,
and named columns aligned positionally with the index. -/
structure DataFrame (ι α : Type) where
  index : List ι
  indexNames : List String
  cols : List (String × List (Option α))
deriving DecidableEq

/-- Column lookup by name (first match, like a pandas column access). -/
def DataFrame.getCol {ι α : Type} (df : DataFrame ι α) (name : String) :
    Option (List (Option α)) :=
  List.lookup name df.cols

/-- Does the table have a column named `name`?  Models `name in df.columns`. -/
def DataFrame.hasCol {ι α : Type} (df : DataFrame ι α) (name : String) : Bool :=
  (df.getCol name).isSome

/-- Align a series (the values `vals` indexed by `srcIndex`) to
`targetIndex`, row-wise left-join style: each target entry takes the value
at the first matching source position, and entries absent from the source
become missing values.  Models `series.reindex(target)`. -/
def alignSeries {ι α : Type} [DecidableEq ι]
    (targetIndex srcIndex : List ι) (vals : List (Option α)) :
    List (Option α) :=
  targetIndex.map (fun i =>
    match srcIndex.findIdx? (fun j => j = i) with
    | some k => vals.getD k none
    | none => none)

/-! ## Panel normalizer -/

/-- Failure of the panel normalizer: neither source table supplies the
clustering column `v`.  Carries the optional caller-supplied error message
(the `locality_error` pass-through the spec describes). -/
inductive PrepError where
  | MissingClusterColumn (callerMsg : Option String)
deriving DecidableEq

/-- Modelled from the spec: `_prepare_cluster_dataframe` of
`src/between_variance.py` is absent from the sources (only its tests are
present), so this follows the spec's contract.  Column-`v` resolution is an
ordered fallback: `primary` wins when it has `v`; otherwise `secondary`'s
`v` is aligned to `primary`'s index (left-join); otherwise the call fails
with `MissingClusterColumn` carrying the optional caller-supplied reason.
All of `primary`'s columns pass through unchanged and the result keeps
`primary`'s index. -/
def prepare_cluster_dataframe {ι α : Type} [DecidableEq ι]
    (primary : DataFrame ι α) (secondary : Option (DataFrame ι α))
    (localityError : Option String) :
    Except PrepError (DataFrame ι α) :=
  match primary.getCol "v" with
  | some _ => Except.ok primary
  | none =>
      match secondary with
      | some sec =>
          match sec.getCol "v" with
          | some svals =>
              Except.ok
                { index := primary.index
                  indexNames := primary.indexNames
                  cols := primary.cols ++
                    [("v", alignSeries primary.index sec.index svals)] }
          | none => Except.error (PrepError.MissingClusterColumn localityError)
      | none => Except.error (PrepError.MissingClusterColumn localityError)

/-! ## Shock cache loader -/

/-- Failure classes of the cache retrieval collaborator `get_dataframe`:
the not-found class (Python `FileNotFoundError`) versus every other error. -/
inductive CacheFailure (ε : Type) where
  | notFound
  | other (e : ε)
deriving DecidableEq

/-- The well-known logical cache path queried by `load_shocks`. -/
def shocksCachePath : String := "var/shocks.parquet"

/-- Observable outcome of one `load_shocks()` call: which logical paths the
cache retrieval was queried with (in order), whether the fallback
construction routine `main()` was invoked, and the returned table or the
propagated error. -/
structure LoadShocksRun (T A ε : Type) where
  queriedPaths : List String
  mainInvoked : Bool
  result : Except (CacheFailure ε) T

/-- Modelled from the spec: `load_shocks` of `src/shocks.py` is absent from
the sources (only its tests are present), so this follows the spec's
contract.  It queries the cache at `var/shocks.parquet`; a hit is returned
unchanged; a not-found failure falls through to the fallback constructor
`main`, keeping only the first component of its pair; any other failure
propagates unchanged without invoking `main`. -/
def load_shocks {T A ε : Type}
    (get_dataframe : String → Except (CacheFailure ε) T)
    (main : Unit → T × A) : LoadShocksRun T A ε :=
  match get_dataframe shocksCachePath with
  | Except.ok t =>
      { queriedPaths := [shocksCachePath], mainInvoked := false
        result := Except.ok t }
  | Except.error CacheFailure.notFound =>
      { queriedPaths := [shocksCachePath], mainInvoked := true
        result := Except.ok (main ()).1 }
  | Except.error (CacheFailure.other e) =>
      { queriedPaths := [shocksCachePath], mainInvoked := false
        result := Except.error (CacheFailure.other e) }

/-! ## Import hook of `src/sitecustomize.py` -/

/-- A raised Python exception: its class name, its message, and the message
of the exception it was explicitly chained from (`raise ... from exc`),
when any. -/
structure PyError where
  excType : String
  msg : String
  cause : Option String
deriving DecidableEq

/-- The `_AUTH_HINT` guidance string of `src/sitecustomize.py`. -/
def AUTH_HINT : String :=
  "The LSMS data are encrypted. Request the passphrase from Ethan Ligon " ++
  "<ligon@berkeley.edu> and provide it to `lsms_library` when prompted."

/-- The method `_LSMSLoader.exec_module` of `src/sitecustomize.py`, embedded over the
outcome of the wrapped loader's own `exec_module`: a `ValueError` whose
message contains the text `Decryption failed` is re-raised as a
`ValueError` carrying the original message followed by the hint, chained
from the original; every other outcome — success, a `ValueError` without
that text, or any other exception class — passes through unchanged. -/
def exec_module (wrappedOutcome : Except PyError Unit) : Except PyError Unit :=
  match wrappedOutcome with
  | Except.ok u => Except.ok u
  | Except.error e =>
      if e.excType = "ValueError" && containsText e.msg "Decryption failed" then
        Except.error
          { excType := "ValueError"
            msg := e.msg ++ "\n\nHint: " ++ AUTH_HINT
            cause := some e.msg }
      else Except.error e

/-! ## RNG seeding of `src/sitecustomize.py` -/

/-- The environment variable consulted at interpreter startup. -/
def seed_env_var : String := "RISKSHARING_SEED"

/-- Observable effect of the seeding block: both global RNGs seeded with
the same integer, nothing seeded, or a `ValueError` raised with the given
message. -/
inductive SeedOutcome where
  | seeded (stdlibRandomSeed : Int) (numpySeed : Int)
  | noSeeding
  | raised (msg : String)
deriving DecidableEq

/-- The seeding block at the bottom of `src/sitecustomize.py`, as a
function of `os.getenv("RISKSHARING_SEED")`.  An unset variable or an
empty string is falsy, so nothing happens; otherwise the value is parsed
with `int(value, 0)`; on success both `random.seed` and `np.random.seed`
receive the integer, on failure a `ValueError` naming the variable is
raised (the embedded message shows the offending value unquoted where the
source formats it with `repr`). -/
def seedFromEnv (envValue : Option String) : SeedOutcome :=
  match envValue with
  | none => SeedOutcome.noSeeding
  | some s =>
      if s = "" then SeedOutcome.noSeeding
      else
        match pyIntBase0 s with
        | some n => SeedOutcome.seeded n n
        | none =>
            SeedOutcome.raised (seed_env_var ++ " must be an integer; got " ++ s)

/-! ## `scripts/summarize_benchmarks.py` -/

/-- The `|`-separated, whitespace-stripped fields of one (already stripped,
non-empty, non-comment) benchmark log line. -/
def benchFields (stripped : String) : List String :=
  (splitChar '|' stripped.toList).map (fun p => (stripChars p).asString)

/-- One iteration of the record-collecting loop of
`scripts/summarize_benchmarks.py`: strip the line; skip blank lines and
`#` comments; split on `|` and strip the fields; skip the line unless
there are exactly three fields, the first parses as a timestamp (the
external `datetime.strptime` collaborator is the `ts_ok` oracle), and the
third — after `rstrip("s")` — parses as an integer; otherwise yield the
`(label, seconds)` record. -/
def parseBenchLine (ts_ok : String → Bool) (line : String) :
    Option (String × Int) :=
  if pyStrip line = "" then none
  else if startsWithChars (pyStrip line).toList ['#'] then none
  else
    match benchFields (pyStrip line) with
    | [ts, label, dur] =>
        if ts_ok ts then
          match pyIntDec ((rstripS dur.toList).asString) with
          | some n => some (label, n)
          | none => none
        else none
    | _ => none

/-- Insert `x` into an already-sorted list, keeping it sorted. -/
def insertSorted (x : Int) : List Int → List Int
  | [] => [x]
  | y :: rest => if x ≤ y then x :: y :: rest else y :: insertSorted x rest

/-- Ascending sort, models Python `sorted` on integer lists. -/
def pySorted (l : List Int) : List Int :=
  l.foldr insertSorted []

/-- The per-group median of `scripts/summarize_benchmarks.py`:
`vals[count // 2]` of the sorted values for an odd count, and
`sum(vals[count//2-1:count//2+1]) // 2` — Python floor division of the two
middle elements — for an even count. -/
def benchMedian (vals : List Int) : Int :=
  if (pySorted vals).length % 2 = 1 then
    (pySorted vals).getD ((pySorted vals).length / 2) 0
  else
    Int.fdiv ((pySorted vals).getD ((pySorted vals).length / 2 - 1) 0 +
      (pySorted vals).getD ((pySorted vals).length / 2) 0) 2

/-! ## Concrete fixtures (mirroring the unit tests' mock tables) -/

/-- A primary table that already has the clustering column `v`, as in
`test_prepare_cluster_dataframe_prefers_other_features_v`. -/
def dfPrimaryWithV : DataFrame String Int :=
  { index := ["hh1", "hh2"], indexNames := ["i", "t", "m"]
    cols := [("v", [some 10, some 20]), ("Rural", [some 1, some 0])] }

/-- A primary table lacking `v`, as in
`test_prepare_cluster_dataframe_uses_locality_when_needed`. -/
def dfPrimaryNoV : DataFrame String Int :=
  { index := ["hh1", "hh2"], indexNames := ["i", "t", "m"]
    cols := [("Rural", [some 1, some 1])] }

/-- A secondary (locality) table supplying `v`, with one index entry that
does not occur in the primary table. -/
def dfLocality : DataFrame String Int :=
  { index := ["hh2", "hh3"], indexNames := ["i", "t", "m"]
    cols := [("v", [some 5, some 7])] }

/-- A cache retrieval stub that always hits. -/
def gdHit : String → Except (CacheFailure Unit) Nat := fun _ => Except.ok 7

/-- A cache retrieval stub that always reports not-found. -/
def gdNotFound : String → Except (CacheFailure Unit) Nat :=
  fun _ => Except.error CacheFailure.notFound

/-- A cache retrieval stub that always fails with a non-not-found error. -/
def gdOtherError : String → Except (CacheFailure Unit) Nat :=
  fun _ => Except.error (CacheFailure.other ())

/-- A fallback construction stub returning a table and a discarded
auxiliary value. -/
def mainStub : Unit → Nat × Bool := fun _ => (3, true)

/-! ## Helper lemmas -/

/-- Association lookup over an appended list, when the key is absent from
the front part. -/
theorem lookup_append_none {α β : Type} [BEq α] (a : α) (l1 l2 : List (α × β))
    (h : List.lookup a l1 = none) :
    List.lookup a (l1 ++ l2) = List.lookup a l2 := by
  induction l1 with
  | nil => simp
  | cons p rest ih =>
      obtain ⟨k, b⟩ := p
      rw [List.cons_append]
      rw [List.lookup_cons] at h ⊢
      cases hak : a == k with
      | true => rw [hak] at h; exact Option.noConfusion h
      | false => rw [hak] at h; exact ih h

/-- Association lookup over an appended list, when the key is found in the
front part. -/
theorem lookup_append_some {α β : Type} [BEq α] (a : α) (l1 l2 : List (α × β))
    (b0 : β) (h : List.lookup a l1 = some b0) :
    List.lookup a (l1 ++ l2) = some b0 := by
  induction l1 with
  | nil => simp at h
  | cons p rest ih =>
      obtain ⟨k, b⟩ := p
      rw [List.cons_append]
      rw [List.lookup_cons] at h ⊢
      cases hak : a == k with
      | true => rw [hak] at h; exact h
      | false => rw [hak] at h; exact ih h

/-- A table without column `v` has lookup `none` on its column list. -/
theorem getCol_none_of_hasCol_false {ι α : Type} (df : DataFrame ι α)
    (name : String) (h : df.hasCol name = false) :
    df.getCol name = none := by
  unfold DataFrame.hasCol at h
  cases hv : df.getCol name with
  | none => rfl
  | some _ => rw [hv] at h; simp at h

/-! ## Claim theorems -/

/-- C1 — Primary precedence: whenever the primary table contains column
`v`, `prepare_cluster_dataframe` succeeds and returns a table whose `v`
column, and every other column, is identical to the primary's, no matter
what the secondary table holds. -/
theorem prepare_primary_precedence {ι α : Type} [DecidableEq ι]
    (primary : DataFrame ι α) (secondary : Option (DataFrame ι α))
    (em : Option String) (h : primary.hasCol "v" = true) :
    ∃ r, prepare_cluster_dataframe primary secondary em = Except.ok r ∧
      r.getCol "v" = primary.getCol "v" ∧
      ∀ c, r.getCol c = primary.getCol c := by
  refine ⟨primary, ?_, rfl, fun c => rfl⟩
  unfold DataFrame.hasCol at h
  rcases Option.isSome_iff_exists.mp h with ⟨vals, hv⟩
  unfold prepare_cluster_dataframe
  rw [hv]

/-- Witness for C1 at the mock tables of the unit tests: a secondary with
a conflicting `v` does not override the primary. -/
theorem prepare_primary_precedence_witness :
    ∃ r, prepare_cluster_dataframe dfPrimaryWithV (some dfLocality) none =
        Except.ok r ∧
      r.getCol "v" = dfPrimaryWithV.getCol "v" ∧
      ∀ c, r.getCol c = dfPrimaryWithV.getCol c :=
  prepare_primary_precedence dfPrimaryWithV (some dfLocality) none (by decide)

/-- C3 — Hard failure on missing cluster label: when the primary table
lacks `v` and the secondary is absent or also lacks `v`, the call fails
with `MissingClusterColumn` (carrying the caller-supplied reason, when
given), and this error is returned to the caller rather than recovered. -/
theorem prepare_missing_cluster_failure {ι α : Type} [DecidableEq ι]
    (primary : DataFrame ι α) (secondary : Option (DataFrame ι α))
    (em : Option String) (h1 : primary.hasCol "v" = false)
    (h2 : ∀ sec, secondary = some sec → sec.hasCol "v" = false) :
    prepare_cluster_dataframe primary secondary em =
      Except.error (PrepError.MissingClusterColumn em) := by
  have hv := getCol_none_of_hasCol_false primary "v" h1
  cases secondary with
  | none => simp only [prepare_cluster_dataframe, hv]
  | some sec =>
      have hs := getCol_none_of_hasCol_false sec "v" (h2 sec rfl)
      simp only [prepare_cluster_dataframe, hv, hs]

/-- Witness for C3 at the mock tables of the unit tests. -/
theorem prepare_missing_cluster_failure_witness :
    prepare_cluster_dataframe dfPrimaryNoV none none =
      Except.error (PrepError.MissingClusterColumn none) :=
  prepare_missing_cluster_failure dfPrimaryNoV none none (by decide)
    (fun sec h => nomatch h)

/-- C7 — Index preservation: every successful call of
`prepare_cluster_dataframe` returns a table carrying the primary table's
index unmodified — same entries in the same order — and the same index
level names. -/
theorem prepare_index_preservation {ι α : Type} [DecidableEq ι]
    (primary : DataFrame ι α) (secondary : Option (DataFrame ι α))
    (em : Option String) (r : DataFrame ι α)
    (h : prepare_cluster_dataframe primary secondary em = Except.ok r) :
    r.index = primary.index ∧ r.indexNames = primary.indexNames := by
  cases hv : primary.getCol "v" with
  | some vals =>
      simp only [prepare_cluster_dataframe, hv] at h
      cases h
      exact ⟨rfl, rfl⟩
  | none =>
      cases secondary with
      | none =>
          simp only [prepare_cluster_dataframe, hv] at h
          exact Except.noConfusion h
      | some sec =>
          cases hs : sec.getCol "v" with
          | some svals =>
              simp only [prepare_cluster_dataframe, hv, hs] at h
              cases h
              exact ⟨rfl, rfl⟩
          | none =>
              simp only [prepare_cluster_dataframe, hv, hs] at h
              exact Except.noConfusion h

/-- Witness for C7 on the fallback-sourcing mock tables. -/
theorem prepare_index_preservation_witness :
    ∃ r, prepare_cluster_dataframe dfPrimaryNoV (some dfLocality) none =
        Except.ok r ∧
      r.index = dfPrimaryNoV.index ∧ r.indexNames = dfPrimaryNoV.indexNames := by
  refine ⟨{ index := ["hh1", "hh2"], indexNames := ["i", "t", "m"]
            cols := [("Rural", [some 1, some 1]),
              ("v", [none, some 5])] }, ?eq, ?pres⟩
  case eq => rfl
  case pres =>
      exact prepare_index_preservation dfPrimaryNoV (some dfLocality) none _
        (by rfl)

/-- C2 — Fallback sourcing: when the primary table lacks `v` and the
secondary supplies it, the call succeeds; the result's `v` is the
secondary's `v` aligned row-wise to the primary's index (index entries
absent from the secondary yield a missing value, not a failure), every
other column of the result agrees with the primary, and the index is the
primary's. -/
theorem prepare_fallback_sourcing {ι α : Type} [DecidableEq ι]
    (primary sec : DataFrame ι α) (em : Option String)
    (svals : List (Option α)) (h1 : primary.hasCol "v" = false)
    (h2 : sec.getCol "v" = some svals) :
    ∃ r, prepare_cluster_dataframe primary (some sec) em = Except.ok r ∧
      r.getCol "v" = some (primary.index.map (fun i =>
        match sec.index.findIdx? (fun j => j = i) with
        | some k => svals.getD k none
        | none => none)) ∧
      (∀ c, c ≠ "v" → r.getCol c = primary.getCol c) ∧
      r.index = primary.index := by
  have hv := getCol_none_of_hasCol_false primary "v" h1
  refine ⟨{ index := primary.index, indexNames := primary.indexNames
            cols := primary.cols ++
              [("v", alignSeries primary.index sec.index svals)] },
    ?_, ?_, ?_, rfl⟩
  · simp only [prepare_cluster_dataframe, hv, h2]
  · show List.lookup "v"
        (primary.cols ++ [("v", alignSeries primary.index sec.index svals)]) = _
    rw [lookup_append_none _ _ _ hv]
    rw [List.lookup_cons]
    rfl
  · intro c hc
    show List.lookup c
        (primary.cols ++ [("v", alignSeries primary.index sec.index svals)]) =
      primary.getCol c
    cases hl : List.lookup c primary.cols with
    | some b =>
        rw [lookup_append_some _ _ _ _ hl]
        exact hl.symm
    | none =>
        rw [lookup_append_none _ _ _ hl]
        rw [List.lookup_cons]
        have hcv : (c == "v") = false := by
          cases hb : c == "v" with
          | true => exact absurd (beq_iff_eq.mp hb) hc
          | false => rfl
        rw [hcv]
        exact hl.symm

/-- Witness for C2 at the mock tables of the unit tests, with an index
entry (`hh1`) absent from the secondary receiving a missing value. -/
theorem prepare_fallback_sourcing_witness :
    ∃ r, prepare_cluster_dataframe dfPrimaryNoV (some dfLocality) none =
        Except.ok r ∧
      r.getCol "v" = some (dfPrimaryNoV.index.map (fun i =>
        match dfLocality.index.findIdx? (fun j => j = i) with
        | some k => ([some 5, some 7] : List (Option Int)).getD k none
        | none => none)) ∧
      (∀ c, c ≠ "v" → r.getCol c = dfPrimaryNoV.getCol c) ∧
      r.index = dfPrimaryNoV.index :=
  prepare_fallback_sourcing dfPrimaryNoV dfLocality none [some 5, some 7]
    (by decide) (by decide)

/-- C4 — Cache hit identity: when the cache retrieval succeeds with table
`t`, `load_shocks` queries exactly the logical path `var/shocks.parquet`
once, never invokes the fallback constructor, and returns `t` itself. -/
theorem load_shocks_cache_hit_identity {T A ε : Type}
    (gd : String → Except (CacheFailure ε) T) (main : Unit → T × A) (t : T)
    (h : gd shocksCachePath = Except.ok t) :
    load_shocks gd main =
      { queriedPaths := ["var/shocks.parquet"], mainInvoked := false
        result := Except.ok t } := by
  unfold load_shocks
  rw [h]
  rfl

/-- Witness for C4 on a concrete always-hit cache stub. -/
theorem load_shocks_cache_hit_identity_witness :
    load_shocks gdHit mainStub =
      { queriedPaths := ["var/shocks.parquet"], mainInvoked := false
        result := Except.ok 7 } :=
  load_shocks_cache_hit_identity gdHit mainStub 7 rfl

/-- C5 — Cache miss fallback: when the cache retrieval reports the
not-found failure class and the fallback constructor returns the pair
`(t2, aux)`, `load_shocks` invokes the fallback and returns exactly `t2`,
discarding the auxiliary component. -/
theorem load_shocks_cache_miss_fallback {T A ε : Type}
    (gd : String → Except (CacheFailure ε) T) (main : Unit → T × A)
    (t2 : T) (aux : A)
    (h1 : gd shocksCachePath = Except.error CacheFailure.notFound)
    (h2 : main () = (t2, aux)) :
    (load_shocks gd main).result = Except.ok t2 ∧
      (load_shocks gd main).mainInvoked = true := by
  unfold load_shocks
  rw [h1, h2]
  exact ⟨rfl, rfl⟩

/-- Witness for C5 on a concrete not-found cache stub. -/
theorem load_shocks_cache_miss_fallback_witness :
    (load_shocks gdNotFound mainStub).result = Except.ok 3 ∧
      (load_shocks gdNotFound mainStub).mainInvoked = true :=
  load_shocks_cache_miss_fallback gdNotFound mainStub 3 true rfl rfl

/-- C6 — Non-not-found propagation: when the cache retrieval fails with
any error outside the not-found class, `load_shocks` propagates that very
error unchanged and never invokes the fallback constructor. -/
theorem load_shocks_error_propagation {T A ε : Type}
    (gd : String → Except (CacheFailure ε) T) (main : Unit → T × A) (e : ε)
    (h : gd shocksCachePath = Except.error (CacheFailure.other e)) :
    load_shocks gd main =
      { queriedPaths := ["var/shocks.parquet"], mainInvoked := false
        result := Except.error (CacheFailure.other e) } := by
  unfold load_shocks
  rw [h]
  rfl

/-- Witness for C6 on a concrete non-not-found failing cache stub. -/
theorem load_shocks_error_propagation_witness :
    load_shocks gdOtherError mainStub =
      { queriedPaths := ["var/shocks.parquet"], mainInvoked := false
        result := Except.error (CacheFailure.other ()) } :=
  load_shocks_error_propagation gdOtherError mainStub () rfl

/-- C8 — Decryption-failure guidance: a `ValueError` from the wrapped
loader whose message contains `Decryption failed` is re-raised as a
`ValueError` whose message is the original followed by the hint, chained
from the original message; a `ValueError` without that text, and any
exception of another class, propagate unchanged; and no raised exception
is ever swallowed into a success. -/
theorem exec_module_decryption_guidance :
    (∀ m c, containsText m "Decryption failed" = true →
        exec_module (Except.error
            { excType := "ValueError", msg := m, cause := c }) =
          Except.error
            { excType := "ValueError"
              msg := m ++ "\n\nHint: " ++ AUTH_HINT
              cause := some m }) ∧
    (∀ e : PyError, containsText e.msg "Decryption failed" = false →
        exec_module (Except.error e) = Except.error e) ∧
    (∀ e : PyError, e.excType ≠ "ValueError" →
        exec_module (Except.error e) = Except.error e) ∧
    (∀ e : PyError, ∃ e2, exec_module (Except.error e) = Except.error e2) := by
  refine ⟨?_, ?_, ?_, ?_⟩
  · intro m c h
    simp [exec_module, h]
  · intro e h
    simp [exec_module, h]
  · intro e h
    simp [exec_module, h]
  · intro e
    by_cases hc : (decide (e.excType = "ValueError") &&
        containsText e.msg "Decryption failed") = true
    · exact ⟨_, by simp only [exec_module]; rw [if_pos hc]⟩
    · exact ⟨e, by simp only [exec_module]; rw [if_neg hc]⟩

/-- Witness for C8 on a concrete decryption-failure message. -/
theorem exec_module_decryption_guidance_witness :
    exec_module (Except.error
        { excType := "ValueError"
          msg := "Decryption failed: missing passphrase"
          cause := none }) =
      Except.error
        { excType := "ValueError"
          msg := "Decryption failed: missing passphrase" ++ "\n\nHint: " ++
            AUTH_HINT
          cause := some "Decryption failed: missing passphrase" } :=
  exec_module_decryption_guidance.1 "Decryption failed: missing passphrase"
    none (by decide)

/-- C9 — Seed handling at interpreter startup: a set, non-empty value that
`int(value, 0)` accepts seeds both global RNGs with that integer; a set,
non-empty value it rejects raises a `ValueError` naming the variable; an
unset or empty variable seeds nothing.  The final conjuncts record that
the accepted forms include decimal and prefixed hex/octal/binary. -/
theorem seed_env_startup_behavior :
    (∀ s n, s ≠ "" → pyIntBase0 s = some n →
        seedFromEnv (some s) = SeedOutcome.seeded n n) ∧
    (∀ s, s ≠ "" → pyIntBase0 s = none →
        seedFromEnv (some s) =
          SeedOutcome.raised
            (seed_env_var ++ " must be an integer; got " ++ s)) ∧
    seedFromEnv none = SeedOutcome.noSeeding ∧
    seedFromEnv (some "") = SeedOutcome.noSeeding ∧
    pyIntBase0 "37" = some 37 ∧ pyIntBase0 "0x25" = some 37 ∧
    pyIntBase0 "0o45" = some 37 ∧ pyIntBase0 "0b100101" = some 37 := by
  refine ⟨?_, ?_, rfl, by decide, by decide, by decide, by decide, by decide⟩
  · intro s n hs hp
    simp only [seedFromEnv]
    rw [if_neg hs, hp]
  · intro s hs hp
    simp only [seedFromEnv]
    rw [if_neg hs, hp]

/-- Witness for C9: a prefixed-hex seed value seeds both RNGs. -/
theorem seed_env_startup_behavior_witness :
    seedFromEnv (some "0x25") = SeedOutcome.seeded 37 37 :=
  seed_env_startup_behavior.1 "0x25" 37 (by decide) (by decide)

/-- Inserting into a list grows its length by one. -/
theorem insertSorted_length (x : Int) (l : List Int) :
    (insertSorted x l).length = l.length + 1 := by
  induction l with
  | nil => rfl
  | cons y rest ih =>
      unfold insertSorted
      by_cases h : x ≤ y
      · rw [if_pos h]
        rfl
      · rw [if_neg h]
        simp only [List.length_cons, ih]

/-- Sorting preserves length. -/
theorem pySorted_length (l : List Int) : (pySorted l).length = l.length := by
  induction l with
  | nil => rfl
  | cons x rest ih =>
      show (insertSorted x (pySorted rest)).length = rest.length + 1
      rw [insertSorted_length, ih]

/-- C10 — Benchmark median and lenient parsing: the reported median is the
middle element of the sorted durations for an odd count and the floor
(Python `//`) of the average of the two middle elements for an even count
— which can round the true median down, as `benchMedian [1, 2] = 1` shows
— while lines with the wrong field count, a timestamp the format check
rejects, or a non-integer duration are skipped (yield no record) rather
than failing. -/
theorem bench_median_and_skip :
    (∀ vals : List Int, vals ≠ [] → vals.length % 2 = 1 →
        benchMedian vals = (pySorted vals).getD (vals.length / 2) 0) ∧
    (∀ vals : List Int, vals ≠ [] → vals.length % 2 = 0 →
        benchMedian vals =
          Int.fdiv ((pySorted vals).getD (vals.length / 2 - 1) 0 +
            (pySorted vals).getD (vals.length / 2) 0) 2) ∧
    benchMedian [1, 2] = 1 ∧
    (∀ f line, (benchFields (pyStrip line)).length ≠ 3 →
        parseBenchLine f line = none) ∧
    (∀ f line ts label dur, benchFields (pyStrip line) = [ts, label, dur] →
        f ts = false → parseBenchLine f line = none) ∧
    (∀ f line ts label dur, benchFields (pyStrip line) = [ts, label, dur] →
        pyIntDec ((rstripS dur.toList).asString) = none →
        parseBenchLine f line = none) := by
  refine ⟨?_, ?_, by decide, ?_, ?_, ?_⟩
  · intro vals hne hodd
    unfold benchMedian
    rw [pySorted_length]
    rw [if_pos hodd]
  · intro vals hne heven
    unfold benchMedian
    rw [pySorted_length]
    rw [if_neg (by omega)]
  · intro f line h
    unfold parseBenchLine
    split
    · rfl
    · split
      · rfl
      · split
        · rename_i ts label dur heq
          exact absurd (by rw [heq]; rfl) h
        · rfl
  · intro f line ts label dur hb hf
    unfold parseBenchLine
    split
    · rfl
    · split
      · rfl
      · simp [hb, hf]
  · intro f line ts label dur hb hp
    have hp2 : pyIntDec (rstripS dur.data).asString = none := hp
    unfold parseBenchLine
    split
    · rfl
    · split
      · rfl
      · simp [hb, hp2]

/-- Witness for C10: an odd-count median instance and a skipped
two-field line. -/
theorem bench_median_and_skip_witness :
    benchMedian [5, 1, 4] =
      (pySorted [5, 1, 4]).getD (([5, 1, 4] : List Int).length / 2) 0 ∧
    parseBenchLine (fun _ => true) "a|b" = none :=
  ⟨bench_median_and_skip.1 [5, 1, 4] (by decide) (by decide),
   bench_median_and_skip.2.2.2.1 (fun _ => true) "a|b" (by decide)⟩
